import Mathlib

/-!
Verification development for the PAL_AI_DATABASE backend (`src/server.js`,
consolidated variant, plus the earlier variants under `src/unnamed/`).

The JavaScript code is shallowly embedded: connections are identified by
natural numbers, the tedious driver state names (`'LoggedIn'`, `'Final'`, ...)
become an enumeration, the process-wide `Map` objects become association
lists, timestamps are integers (milliseconds), and the external collaborators
(bcrypt, the SQL database, nodemailer) are abstract function parameters or
explicit state.
-/

namespace PalAi

/-! ## Connection pool (`src/server.js` lines 13-143) -/

/-- Lifecycle state names of a tedious connection, as inspected by
`conn.state.name` in `server.js` (`'LoggedIn'` = ready, `'Final'` = closed). -/
inductive ConnState where
  | Connecting
  | LoggedIn
  | Final
  deriving DecidableEq, Repr

/-- `MAX_POOL_SIZE` from `server.js` line 14. -/
def MAX_POOL_SIZE : Nat := 10

/-- The mutable state relevant to the pool: the `connectionPool` array
(connections identified by `Nat`), each connection's driver state, and its
`isExecuting` flag. -/
structure PoolSt where
  entries : List Nat
  connState : Nat → ConnState
  isExecuting : Nat → Bool

/-- A connection is available when `conn.state.name === 'LoggedIn' &&
!conn.isExecuting` (`server.js` lines 74-75). -/
def availB (s : PoolSt) (c : Nat) : Bool :=
  (s.connState c == ConnState.LoggedIn) && !(s.isExecuting c)

/-- The downward splice loop of `getConnection` (`server.js` lines 67-71)
removes every entry whose state is `'Final'`; iterating from the top index
down, it is exactly a filter keeping non-`Final` entries. -/
def pruneClosed (s : PoolSt) : List Nat :=
  s.entries.filter (fun c => s.connState c != ConnState.Final)

/-- `connectionPool.find(conn => conn.state.name === 'LoggedIn' &&
!conn.isExecuting)` over a given entry list. -/
def findAvail (s : PoolSt) (l : List Nat) : Option Nat :=
  l.find? (availB s)

/-- `getConnection` (`server.js` lines 65-99): prune closed entries, return
the first available one; otherwise append a freshly created connection when
the pool is below `MAX_POOL_SIZE`; otherwise enter the polling wait (modelled
as returning `none` now — the poll itself is the separate `poll` operation). -/
def getConnection (s : PoolSt) (fresh : Nat) : Option Nat × PoolSt :=
  let pruned := pruneClosed s
  let s1 : PoolSt := { s with entries := pruned }
  match findAvail s1 pruned with
  | some c => (some c, s1)
  | none =>
    if pruned.length < MAX_POOL_SIZE then
      (some fresh, { s1 with entries := pruned ++ [fresh] })
    else
      (none, s1)

/-- The `checkInterval` body of the saturation wait (`server.js` lines 90-97):
search the pool, without pruning, for an available connection. -/
def pollWait (s : PoolSt) : Option Nat :=
  findAvail s s.entries

/-- The `catch` path of `executeQuery` (`server.js` lines 133-142): when the
connection's state is `'Final'`, `indexOf`/`splice` removes its first
occurrence from the pool. -/
def evictFailed (s : PoolSt) (c : Nat) : PoolSt :=
  if s.connState c = ConnState.Final then
    { s with entries := s.entries.erase c }
  else
    s

/-- The operations that touch the pool state: an acquire (with the identity
the driver would give a newly constructed connection), one tick of the
saturation poll, the failed-release eviction from `executeQuery`, and
driver-side transitions of a connection's state or busy flag (which never
touch the `entries` array). -/
inductive PoolOp where
  | acquire (fresh : Nat)
  | poll
  | evict (c : Nat)
  | setState (c : Nat) (st : ConnState)
  | setBusy (c : Nat) (b : Bool)
  deriving DecidableEq

/-- The connection identity an operation would append, if any. -/
def freshOf : PoolOp → Option Nat
  | .acquire f => some f
  | _ => none

/-- One step of the pool: the connection returned to the caller (if any) and
the successor state. -/
def poolStep (s : PoolSt) : PoolOp → Option Nat × PoolSt
  | .acquire f => getConnection s f
  | .poll => (pollWait s, s)
  | .evict c => (none, evictFailed s c)
  | .setState c st =>
      (none, { s with connState := fun x => if x = c then st else s.connState x })
  | .setBusy c b =>
      (none, { s with isExecuting := fun x => if x = c then b else s.isExecuting x })

/-- Run a sequence of pool operations. -/
def poolRun (s : PoolSt) : List PoolOp → PoolSt
  | [] => s
  | op :: ops => poolRun (poolStep s op).2 ops

/-- The connections handed out along a run, in order. -/
def poolReturns (s : PoolSt) : List PoolOp → List (Option Nat)
  | [] => []
  | op :: ops => (poolStep s op).1 :: poolReturns (poolStep s op).2 ops

/-- The pool at process start: `const connectionPool = []`. -/
def initialPool : PoolSt :=
  { entries := [], connState := fun _ => ConnState.Connecting,
    isExecuting := fun _ => false }

/-! ## C6: refinement of `getConnection` against the spec's acquire contract -/

/-- Spec-side notion of an entry in state "Ready-and-not-busy"
(`'LoggedIn'` and not executing). -/
def ReadyNotBusy (s : PoolSt) (c : Nat) : Prop :=
  s.connState c = ConnState.LoggedIn ∧ s.isExecuting c = false

/-- Spec-side pruning: "prunes all entries whose state is Closed". -/
def specPrune (s : PoolSt) : List Nat :=
  s.entries.filter (fun c => decide (s.connState c ≠ ConnState.Final))

/-- The spec's `acquire()` contract, written from the spec's words: after
pruning Closed entries, either the first Ready-and-not-busy entry is returned
(first match, no other tie-break) and the pool is the pruned list; or no entry
is available and, the pruned pool being strictly below `maxSize`, the freshly
constructed connection is appended and returned; or no entry is available,
the pool is full, and nothing is returned yet (the caller waits). The state
and busy maps are untouched. -/
def acquireSpec (s : PoolSt) (fresh : Nat) (r : Option Nat) (t : PoolSt) : Prop :=
  let pruned := specPrune s
  t.connState = s.connState ∧ t.isExecuting = s.isExecuting ∧
  ((∃ a l1 l2, pruned = l1 ++ a :: l2 ∧ ReadyNotBusy s a ∧
      (∀ b ∈ l1, ¬ ReadyNotBusy s b) ∧ r = some a ∧ t.entries = pruned) ∨
   ((∀ b ∈ pruned, ¬ ReadyNotBusy s b) ∧ pruned.length < MAX_POOL_SIZE ∧
      r = some fresh ∧ t.entries = pruned ++ [fresh]) ∨
   ((∀ b ∈ pruned, ¬ ReadyNotBusy s b) ∧ MAX_POOL_SIZE ≤ pruned.length ∧
      r = none ∧ t.entries = pruned))

/-! ## In-process verification stores (`server.js` lines 170-178)

The process-wide `Map` objects (`verificationCodes`, `passwordResetCodes`,
`otpStorage`) are embedded as association lists with JavaScript `Map`
get/set/delete semantics. Timestamps are milliseconds (`Int`); `Date.now()` /
`new Date()` become an explicit `now` parameter. -/

/-- A character the JavaScript `.trim()` of the submitted strings removes
(the whitespace actually at stake here). -/
def isJsWhitespace (c : Char) : Bool :=
  c == ' ' || c == '\t' || c == '\n' || c == '\r'

/-- JavaScript `String.prototype.trim`, modelled executably over the
character list: strip leading and trailing whitespace. -/
def jsTrim (s : String) : String :=
  String.mk (((s.data.dropWhile isJsWhitespace).reverse.dropWhile
    isJsWhitespace).reverse)

def mapGet {α : Type} (m : List (String × α)) (k : String) : Option α :=
  (m.find? (fun p => p.1 == k)).map Prod.snd

def mapSet {α : Type} (m : List (String × α)) (k : String) (v : α) : List (String × α) :=
  (k, v) :: m.filter (fun p => p.1 != k)

def mapDelete {α : Type} (m : List (String × α)) (k : String) : List (String × α) :=
  m.filter (fun p => p.1 != k)

/-- A pending registration stored in `verificationCodes` by `/pre-signup`
(`server.js` lines 540-552). The birthdate is kept opaque as a string. -/
structure VerRecord where
  username : String
  password : String
  firstname : String
  lastname : String
  birthdate : String
  gender : String
  mobilenumber : String
  verificationCode : String
  codeExpiry : Int
  deriving DecidableEq, Repr

/-- An entry of `passwordResetCodes`, written by `/forgot-password`
(`server.js` lines 741-745). -/
structure ResetRecord where
  resetCode : String
  codeExpiry : Int
  userId : Nat
  deriving DecidableEq, Repr

/-- An entry of `otpStorage`, written by `/verify-email-change`
(`server.js` lines 340-344); the expiry is implicit: `timestamp + 10 min`. -/
structure OtpRecord where
  otp : String
  newEmail : String
  timestamp : Int
  deriving DecidableEq, Repr

/-! ## Persisted storage (the SQL collaborator)

Modelled from the spec: the relational database behind `executeQuery` is an
external collaborator (§1 of the spec treats it as an opaque persistence
collaborator); only the two tables the claims touch are modelled, as lists of
rows plus an identity counter for `SCOPE_IDENTITY()`. A multi-statement batch
wrapped in `BEGIN TRANSACTION ... COMMIT TRANSACTION` is modelled as atomic:
it either applies all of its row effects or, when it fails, none ("both rows
exist or neither does", spec §4.4/§5); the failure case is driven by an
explicit `dbOk` flag. -/

structure CredRow where
  user_id : Nat
  username : String
  password : String
  role_id : Nat
  deriving DecidableEq, Repr

structure ProfileRow where
  user_id : Nat
  firstname : String
  lastname : String
  birthdate : String
  gender : String
  email : String
  mobile_number : String
  deriving DecidableEq, Repr

structure DB where
  credentials : List CredRow
  profiles : List ProfileRow
  nextId : Nat
  deriving DecidableEq, Repr

/-- `generateVerificationCode` (`server.js` lines 176-178):
`Math.floor(100000 + Math.random() * 900000).toString()`, with
`Math.random()` modelled by an arbitrary draw `rand` reduced mod 900000. -/
def generateVerificationCode (rand : Nat) : String :=
  toString (100000 + rand % 900000)

/-! ## Signup endpoints (`server.js` lines 517-658) -/

structure PreSignupReq where
  username : String
  email : String
  password : String
  firstname : String
  lastname : String
  birthdate : String
  gender : String
  mobilenumber : String
  deriving DecidableEq, Repr

inductive PreSignupResp where
  | conflict
  | okSent (email : String)
  deriving DecidableEq, Repr

/-- `/pre-signup` (`server.js` lines 517-582): 409 when the email is already
in `user_profiles`; otherwise store the pending registration with a 15-minute
expiry under the email key, email the code, return 200. The returned list
records the mails sent (recipient, code). The database value is threaded
through to make the frame effect explicit. -/
def preSignup (db : DB) (store : List (String × VerRecord)) (req : PreSignupReq)
    (now : Int) (rand : Nat) :
    PreSignupResp × List (String × VerRecord) × DB × List (String × String) :=
  if db.profiles.any (fun p => p.email == req.email) then
    (.conflict, store, db, [])
  else
    let code := generateVerificationCode rand
    let r0 : VerRecord :=
      { username := req.username, password := req.password,
        firstname := req.firstname, lastname := req.lastname,
        birthdate := req.birthdate, gender := req.gender,
        mobilenumber := req.mobilenumber, verificationCode := code,
        codeExpiry := now + 15 * 60 * 1000 }
    (.okSent req.email, mapSet store req.email r0, db, [(req.email, code)])

inductive SignupResp where
  | invalidCode
  | created (userId : Nat)
  | serverError
  deriving DecidableEq, Repr

/-- `/complete-signup` (`server.js` lines 585-658): 400 when there is no
record, the code mismatches, or `new Date() > codeExpiry`; otherwise run the
transactional registration batch (atomic, see the DB model note) — on batch
success hash the pending password (bcrypt on the trimmed plaintext, abstract
`hash`), insert the credentials and profile rows, delete the verification
record, and return 201 with the generated id; on batch failure return 500
with the store untouched. -/
def completeSignup (store : List (String × VerRecord)) (db : DB)
    (email code : String) (now : Int) (dbOk : Bool) (hash : String → String) :
    SignupResp × List (String × VerRecord) × DB :=
  match mapGet store email with
  | none => (.invalidCode, store, db)
  | some r =>
    if r.verificationCode != code || decide (now > r.codeExpiry) then
      (.invalidCode, store, db)
    else if dbOk then
      let uid := db.nextId
      let db' : DB :=
        { credentials := db.credentials ++
            [{ user_id := uid, username := r.username,
               password := hash (jsTrim r.password), role_id := 1 }],
          profiles := db.profiles ++
            [{ user_id := uid, firstname := r.firstname, lastname := r.lastname,
               birthdate := r.birthdate, gender := r.gender, email := email,
               mobile_number := r.mobilenumber }],
          nextId := uid + 1 }
      (.created uid, mapDelete store email, db')
    else
      (.serverError, store, db)

/-! ## Password-reset endpoints (`server.js` lines 777-938) -/

inductive OtpResp where
  | missingFields
  | noRequest
  | invalidOtp
  | otpExpired
  | verified (userId : Nat)
  deriving DecidableEq, Repr

/-- `/verify-otp` (`server.js` lines 777-822): requires both fields (falsy
check, `""` modelling a missing string); 400 when there is no record or the
code mismatches; when the code matches but `new Date() > codeExpiry`, the
record is deleted and 400 returned; otherwise 200 with the stored user id. -/
def verifyOtp (store : List (String × ResetRecord)) (email otp : String) (now : Int) :
    OtpResp × List (String × ResetRecord) :=
  if email == "" || otp == "" then (.missingFields, store)
  else
    match mapGet store email with
    | none => (.noRequest, store)
    | some r =>
      if r.resetCode != otp then (.invalidOtp, store)
      else if decide (now > r.codeExpiry) then (.otpExpired, mapDelete store email)
      else (.verified r.userId, store)

inductive ResetPwResp where
  | missingFields
  | userNotFound
  | okUpdated
  | serverError
  deriving DecidableEq, Repr

/-- `/reset-password` (`server.js` lines 887-938): requires both fields,
resolves the user id from `user_profiles` by email, hashes the new password
and updates the credential row. Note that `passwordResetCodes` is threaded
through unchanged: the endpoint never reads or deletes the reset OTP
record. -/
def resetPassword (db : DB) (store : List (String × ResetRecord))
    (email newPassword : String) (hash : String → String) :
    ResetPwResp × DB × List (String × ResetRecord) :=
  if email == "" || newPassword == "" then (.missingFields, db, store)
  else
    match db.profiles.find? (fun p => p.email == email) with
    | none => (.userNotFound, db, store)
    | some p =>
      let db' : DB :=
        { db with credentials := db.credentials.map (fun c =>
            if c.user_id == p.user_id then { c with password := hash newPassword } else c) }
      (.okUpdated, db', store)

/-! ## Email change confirmation (`server.js` lines 368-466) -/

inductive EmailChangeResp where
  | noRequest
  | otpExpired
  | invalidOtp
  | okUpdated
  | serverError
  deriving DecidableEq, Repr

/-- `/confirm-email-change` (`server.js` lines 368-466): keyed by
`user_id.toString()`; 400 "No OTP request found" when there is no record;
when `Date.now() - timestamp > 10 min` the record is deleted and 400
returned; 400 on OTP mismatch; otherwise the profile email column is updated
and the record deleted. -/
def confirmEmailChange (otpStore : List (String × OtpRecord)) (db : DB)
    (user_id : Nat) (otp : String) (now : Int) :
    EmailChangeResp × List (String × OtpRecord) × DB :=
  match mapGet otpStore (toString user_id) with
  | none => (.noRequest, otpStore, db)
  | some r =>
    if decide (now - r.timestamp > 10 * 60 * 1000) then
      (.otpExpired, mapDelete otpStore (toString user_id), db)
    else if r.otp != otp then
      (.invalidOtp, otpStore, db)
    else
      (.okUpdated, mapDelete otpStore (toString user_id),
        { db with profiles := db.profiles.map (fun p =>
            if p.user_id == user_id then { p with email := r.newEmail } else p) })

/-! ## Login (`server.js` lines 1004-1066, consolidated variant) -/

def profileOf (db : DB) (uid : Nat) : Option ProfileRow :=
  db.profiles.find? (fun p => p.user_id == uid)

/-- The credentials lookup in `/login`: the first `user_credentials` row
matched by `uc.username = @param0 OR up.email = @param0` over the left join
with `user_profiles`. -/
def loginLookup (db : DB) (ident : String) : Option CredRow :=
  db.credentials.find? (fun c =>
    c.username == ident ||
      (match profileOf db c.user_id with
       | some p => p.email == ident
       | none => false))

inductive LoginResp where
  | missingFields
  | invalidCredentials
  | loggedIn (id : Nat) (username : String) (email : Option String) (roleId : Nat)
  | serverError
  deriving DecidableEq, Repr

/-- `/login` (`server.js` lines 1004-1066): 400 "Missing required fields" on
a falsy identifier or password; 400 "Invalid credentials" when no credential
row matches the trimmed identifier, and the same 400 "Invalid credentials"
when a row matches but the bcrypt comparison (abstract `check`, applied to
the trimmed password and the stored hash) fails; on success the user summary
(id, username, email from the joined profile, roleId). -/
def login (db : DB) (identifier password : String)
    (check : String → String → Bool) : LoginResp :=
  if identifier == "" || password == "" then .missingFields
  else
    match loginLookup db (jsTrim identifier) with
    | none => .invalidCredentials
    | some c =>
      if check (jsTrim password) c.password then
        .loggedIn c.user_id c.username ((profileOf db c.user_id).map ProfileRow.email)
          c.role_id
      else
        .invalidCredentials

/-! ## The /save missing-field check (`server.js` lines 1221-1243) -/

/-- JavaScript values as far as the `/save` field checks distinguish them. -/
inductive JsVal where
  | undef
  | nullV
  | num (n : Int)
  | str (s : String)
  | boolean (b : Bool)
  deriving DecidableEq, Repr

/-- JavaScript truthiness on the modelled values (`!x` rejects exactly the
falsy ones). -/
def falsy : JsVal → Bool
  | .undef => true
  | .nullV => true
  | .num n => n == 0
  | .str s => s == ""
  | .boolean b => !b

/-- The `x === null || x === undefined` test. -/
def isNullish : JsVal → Bool
  | .undef => true
  | .nullV => true
  | _ => false

structure SaveReq where
  user_profile_id : JsVal
  disease_prediction : JsVal
  disease_prediction_score : JsVal
  scan_image : JsVal
  deriving DecidableEq, Repr

/-- The `missingFields` array built by the consolidated `/save`
(`server.js` lines 1225-1236): `scan_image` and `user_profile_id` are pushed
on falsiness, `disease_prediction_score` and `disease_prediction` only when
null or undefined, in this push order. -/
def saveMissingFields (r : SaveReq) : List String :=
  (if falsy r.scan_image then ["scan_image"] else []) ++
  (if falsy r.user_profile_id then ["user_profile_id"] else []) ++
  (if isNullish r.disease_prediction_score then ["disease_prediction_score"] else []) ++
  (if isNullish r.disease_prediction then ["disease_prediction"] else [])

inductive SaveResp where
  | badRequest (missingFields : List String)
  | proceed
  deriving DecidableEq, Repr

/-- The field-validation gate of `/save` (`server.js` lines 1238-1243):
400 listing the missing fields when any, otherwise fall through to the
insert. -/
def saveCheck (r : SaveReq) : SaveResp :=
  if (saveMissingFields r).length > 0 then .badRequest (saveMissingFields r)
  else .proceed

/-! ## Theorems -/

lemma pruneClosed_length_le (s : PoolSt) : (pruneClosed s).length ≤ s.entries.length :=
  List.length_filter_le _ _

lemma poolStep_length_le (s : PoolSt) (op : PoolOp)
    (h : s.entries.length ≤ MAX_POOL_SIZE) :
    ((poolStep s op).2.entries).length ≤ MAX_POOL_SIZE := by
  cases op with
  | acquire f =>
    simp only [poolStep, getConnection]
    cases hfind : findAvail { s with entries := pruneClosed s } (pruneClosed s) with
    | some c =>
      simpa using le_trans (pruneClosed_length_le s) h
    | none =>
      by_cases hlen : (pruneClosed s).length < MAX_POOL_SIZE
      · simp only [hfind, hlen, if_true]
        simpa using hlen
      · simp only [hfind, hlen, if_false]
        exact le_trans (pruneClosed_length_le s) h
  | poll => simpa using h
  | evict c =>
    simp only [poolStep, evictFailed]
    split
    · exact le_trans (List.length_erase_le _ _) h
    · exact h
  | setState c st => simpa using h
  | setBusy c b => simpa using h

lemma poolRun_length_le (s : PoolSt) (ops : List PoolOp)
    (h : s.entries.length ≤ MAX_POOL_SIZE) :
    ((poolRun s ops).entries).length ≤ MAX_POOL_SIZE := by
  induction ops generalizing s with
  | nil => simpa [poolRun] using h
  | cons op ops ih =>
    exact ih _ (poolStep_length_le s op h)

/-- C1: starting from the empty `connectionPool`, after any sequence of
acquires, polls, failed-release evictions and driver state transitions, the
pool never holds more than `MAX_POOL_SIZE = 10` entries: `getConnection`
appends a new connection only when the pruned pool is strictly below the cap,
and no other operation grows the pool. -/
theorem pool_bound_invariant (ops : List PoolOp) :
    ((poolRun initialPool ops).entries).length ≤ MAX_POOL_SIZE :=
  poolRun_length_le initialPool ops (by simp [initialPool])

lemma not_mem_pruneClosed (s : PoolSt) (c : Nat) (h : c ∉ s.entries) :
    c ∉ pruneClosed s :=
  fun hc => h (List.mem_of_mem_filter hc)

lemma findAvail_ne (s : PoolSt) (l : List Nat) (c : Nat) (h : c ∉ l) :
    findAvail s l ≠ some c := by
  intro hfind
  exact h (List.mem_of_find?_eq_some hfind)

lemma poolStep_avoids (s : PoolSt) (op : PoolOp) (c : Nat)
    (hmem : c ∉ s.entries) (hfresh : freshOf op ≠ some c) :
    (poolStep s op).1 ≠ some c ∧ c ∉ (poolStep s op).2.entries := by
  cases op with
  | acquire f =>
    have hf : f ≠ c := by
      intro h; exact hfresh (by simp [freshOf, h])
    have hpr : c ∉ pruneClosed s := not_mem_pruneClosed s c hmem
    simp only [poolStep, getConnection]
    cases hfind : findAvail { s with entries := pruneClosed s } (pruneClosed s) with
    | some d =>
      have hd : d ≠ c := by
        intro hdc
        exact findAvail_ne _ _ c hpr (hdc ▸ hfind)
      constructor
      · simpa using fun h => hd h
      · simpa using hpr
    | none =>
      by_cases hlen : (pruneClosed s).length < MAX_POOL_SIZE
      · simp only [hlen, if_true]
        constructor
        · simpa using fun h => hf h
        · simp only [List.mem_append, List.mem_singleton]
          rintro (h | h)
          · exact hpr h
          · exact hf h.symm
      · simp only [hlen, if_false]
        exact ⟨by simp, by simpa using hpr⟩
  | poll =>
    refine ⟨?_, by simpa using hmem⟩
    simpa [poolStep, pollWait] using findAvail_ne s s.entries c hmem
  | evict d =>
    refine ⟨by simp [poolStep], ?_⟩
    simp only [poolStep, evictFailed]
    split
    · exact fun h => hmem (List.mem_of_mem_erase h)
    · exact hmem
  | setState d st => exact ⟨by simp [poolStep], by simpa using hmem⟩
  | setBusy d b => exact ⟨by simp [poolStep], by simpa using hmem⟩

lemma poolReturns_avoids (s : PoolSt) (ops : List PoolOp) (c : Nat)
    (hmem : c ∉ s.entries) (hfresh : ∀ op ∈ ops, freshOf op ≠ some c) :
    some c ∉ poolReturns s ops := by
  induction ops generalizing s with
  | nil => simp [poolReturns]
  | cons op ops ih =>
    have hstep := poolStep_avoids s op c hmem (hfresh op (List.mem_cons_self op ops))
    simp only [poolReturns, List.mem_cons]
    rintro (h | h)
    · exact hstep.1 h.symm
    · exact ih _ hstep.2 (fun o ho => hfresh o (List.mem_cons_of_mem op ho)) h

/-- C2: if a connection `c` fails terminally (its driver state is `'Final'`)
and `executeQuery`'s catch path evicts it (`evictFailed`), then no subsequent
`getConnection` (acquire or saturation poll) along any run ever returns `c`,
provided each newly constructed connection is a genuinely fresh identity
distinct from `c` and `c` occurred at most once in the pool. -/
theorem evicted_never_reacquired (s : PoolSt) (c : Nat) (ops : List PoolOp)
    (hdup : s.entries.count c ≤ 1)
    (hfinal : s.connState c = ConnState.Final)
    (hfresh : ∀ op ∈ ops, freshOf op ≠ some c) :
    some c ∉ poolReturns (evictFailed s c) ops := by
  have hnot : c ∉ (evictFailed s c).entries := by
    simp only [evictFailed, hfinal, if_pos rfl]
    intro hmem
    have h1 : (s.entries.erase c).count c = s.entries.count c - 1 :=
      List.count_erase_self c s.entries
    have h2 : 1 ≤ (s.entries.erase c).count c := List.one_le_count_iff.mpr hmem
    omega
  exact poolReturns_avoids _ ops c hnot hfresh

/-- Witness for `evicted_never_reacquired` at a concrete pool: connection `5`
is `'Final'` and present once; after eviction, an acquire creating fresh
connection `6` and a poll never hand out `5`. -/
theorem evicted_never_reacquired_witness :
    some 5 ∉ poolReturns
      (evictFailed
        { entries := [5], connState := fun _ => ConnState.Final,
          isExecuting := fun _ => false } 5)
      [PoolOp.acquire 6, PoolOp.poll] :=
  evicted_never_reacquired
    { entries := [5], connState := fun _ => ConnState.Final,
      isExecuting := fun _ => false } 5 [PoolOp.acquire 6, PoolOp.poll]
    (by decide) rfl (by decide)

lemma availB_iff (s : PoolSt) (c : Nat) : availB s c = true ↔ ReadyNotBusy s c := by
  simp [availB, ReadyNotBusy, Bool.and_eq_true, Bool.not_eq_true']

lemma specPrune_eq (s : PoolSt) : specPrune s = pruneClosed s := by
  unfold specPrune pruneClosed
  apply List.filter_congr
  intro c _
  cases h : s.connState c <;> simp [h]

lemma find?_eq_some_split {α : Type} {p : α → Bool} :
    ∀ {l : List α} {a : α}, l.find? p = some a →
      ∃ l1 l2, l = l1 ++ a :: l2 ∧ p a = true ∧ ∀ b ∈ l1, p b = false := by
  intro l
  induction l with
  | nil => intro a h; simp [List.find?] at h
  | cons x xs ih =>
    intro a h
    by_cases hx : p x = true
    · rw [List.find?_cons_of_pos _ hx] at h
      cases h
      exact ⟨[], xs, by simp, hx, by simp⟩
    · rw [List.find?_cons_of_neg _ (by simpa using hx)] at h
      obtain ⟨l1, l2, hsplit, hpa, hall⟩ := ih h
      refine ⟨x :: l1, l2, by simp [hsplit], hpa, ?_⟩
      intro b hb
      rcases List.mem_cons.mp hb with hb | hb
      · simpa [hb] using hx
      · exact hall b hb

/-- C6: `getConnection` meets the spec's acquire contract: it first prunes
every `'Final'` entry, then returns the first existing `'LoggedIn'`-and-not-
executing entry if one exists (first match, no other tie-break); otherwise,
when the pool is strictly below `MAX_POOL_SIZE`, it appends the newly
constructed connection and returns it; otherwise it returns nothing yet
(the polling wait). -/
theorem getConnection_meets_acquireSpec (s : PoolSt) (fresh : Nat) :
    acquireSpec s fresh (getConnection s fresh).1 (getConnection s fresh).2 := by
  unfold acquireSpec
  rw [specPrune_eq]
  simp only [getConnection]
  cases hfind : findAvail { s with entries := pruneClosed s } (pruneClosed s) with
  | some c =>
    refine ⟨rfl, rfl, ?_⟩
    left
    obtain ⟨l1, l2, hsplit, hpa, hall⟩ := find?_eq_some_split hfind
    have hc : ReadyNotBusy s c := (availB_iff s c).mp hpa
    refine ⟨c, l1, l2, hsplit, hc, ?_, rfl, rfl⟩
    intro b hb hrb
    have := hall b hb
    rw [show availB { s with entries := pruneClosed s } b = availB s b from rfl] at this
    exact absurd ((availB_iff s b).mpr hrb) (by simp [this])
  | none =>
    have hnone : ∀ b ∈ pruneClosed s, ¬ ReadyNotBusy s b := by
      intro b hb hrb
      have := List.find?_eq_none.mp hfind b hb
      exact this ((availB_iff s b).mpr hrb)
    by_cases hlen : (pruneClosed s).length < MAX_POOL_SIZE
    · rw [if_pos hlen]
      exact ⟨rfl, rfl, Or.inr (Or.inl ⟨hnone, hlen, rfl, rfl⟩)⟩
    · rw [if_neg hlen]
      exact ⟨rfl, rfl, Or.inr (Or.inr ⟨hnone, Nat.le_of_not_lt hlen, rfl, rfl⟩)⟩

/-! ### Store lemmas -/

lemma mapGet_mapDelete {α : Type} (m : List (String × α)) (k : String) :
    mapGet (mapDelete m k) k = none := by
  unfold mapGet mapDelete
  have h : (m.filter (fun p => p.1 != k)).find? (fun p => p.1 == k) = none := by
    rw [List.find?_eq_none]
    intro x hx
    have hx2 := List.of_mem_filter hx
    simpa using hx2
  rw [h]
  rfl

lemma mapGet_mapSet_self {α : Type} (m : List (String × α)) (k : String) (v : α) :
    mapGet (mapSet m k v) k = some v := by
  unfold mapGet mapSet
  rw [List.find?_cons_of_pos _ (by simp)]
  rfl

/-! ### complete-signup case lemmas -/

lemma completeSignup_invalid_iff (store : List (String × VerRecord)) (db : DB)
    (email code : String) (now : Int) (dbOk : Bool) (hash : String → String) :
    (completeSignup store db email code now dbOk hash).1 = SignupResp.invalidCode ↔
      mapGet store email = none ∨
        ∃ r, mapGet store email = some r ∧
          (r.verificationCode ≠ code ∨ now > r.codeExpiry) := by
  cases hm : mapGet store email with
  | none => simp [completeSignup, hm]
  | some r =>
    by_cases hc : r.verificationCode = code
    · by_cases he : now > r.codeExpiry
      · simp [completeSignup, hm, hc, he]
      · cases dbOk <;> simp [completeSignup, hm, hc, he]
    · simp [completeSignup, hm, hc]

lemma completeSignup_created (store : List (String × VerRecord)) (db : DB)
    (email code : String) (now : Int) (dbOk : Bool) (hash : String → String) (uid : Nat)
    (h : (completeSignup store db email code now dbOk hash).1 = SignupResp.created uid) :
    ∃ r, mapGet store email = some r ∧ r.verificationCode = code ∧
      now ≤ r.codeExpiry ∧ dbOk = true ∧ uid = db.nextId ∧
      (completeSignup store db email code now dbOk hash).2.1 = mapDelete store email ∧
      (completeSignup store db email code now dbOk hash).2.2 =
        { credentials := db.credentials ++
            [{ user_id := db.nextId, username := r.username,
               password := hash (jsTrim r.password), role_id := 1 }],
          profiles := db.profiles ++
            [{ user_id := db.nextId, firstname := r.firstname, lastname := r.lastname,
               birthdate := r.birthdate, gender := r.gender, email := email,
               mobile_number := r.mobilenumber }],
          nextId := db.nextId + 1 } := by
  cases hm : mapGet store email with
  | none => simp [completeSignup, hm] at h
  | some r =>
    by_cases hc : r.verificationCode = code
    · by_cases he : now > r.codeExpiry
      · simp [completeSignup, hm, hc, he] at h
      · cases hdb : dbOk with
        | false => simp [completeSignup, hm, hc, he, hdb] at h
        | true =>
          refine ⟨r, rfl, hc, not_lt.mp he, rfl, ?_, ?_, ?_⟩
          · have := h
            simp [completeSignup, hm, hc, he, hdb] at this
            omega
          · simp [completeSignup, hm, hc, he, hdb]
          · simp [completeSignup, hm, hc, he, hdb]
    · simp [completeSignup, hm, hc] at h

lemma completeSignup_dbFail (store : List (String × VerRecord)) (db : DB)
    (email code : String) (now : Int) (hash : String → String) :
    (completeSignup store db email code now false hash).2.2 = db ∧
    (completeSignup store db email code now false hash).2.1 = store ∧
    ∀ uid, (completeSignup store db email code now false hash).1 ≠ SignupResp.created uid := by
  cases hm : mapGet store email with
  | none => simp [completeSignup, hm]
  | some r =>
    by_cases hc : r.verificationCode = code
    · by_cases he : now > r.codeExpiry
      · simp [completeSignup, hm, hc, he]
      · simp [completeSignup, hm, hc, he]
    · simp [completeSignup, hm, hc]

/-! ### confirm-email-change case lemma -/

lemma confirmEmailChange_ok (ostore : List (String × OtpRecord)) (odb : DB)
    (user_id : Nat) (otp : String) (now : Int)
    (h : (confirmEmailChange ostore odb user_id otp now).1 = EmailChangeResp.okUpdated) :
    (confirmEmailChange ostore odb user_id otp now).2.1 =
      mapDelete ostore (toString user_id) := by
  cases hm : mapGet ostore (toString user_id) with
  | none => simp [confirmEmailChange, hm] at h
  | some r =>
    by_cases he : (600000 : Int) < now - r.timestamp
    · simp [confirmEmailChange, hm, he]
    · by_cases hc : r.otp = otp
      · simp [confirmEmailChange, hm, he, hc]
      · simp [confirmEmailChange, hm, he, hc] at h

/-- C7: `/complete-signup` returns the 400 invalid-or-expired response exactly
when there is no stored record for the email, the submitted code differs from
the stored one, or the current time is strictly after the stored expiry; and
whenever it returns 201 with a user id, that id is the generated one, the
pending password was hashed (after trimming), the credentials and profile
rows were inserted, and the verification record for the email was deleted. -/
theorem completeSignup_spec (store : List (String × VerRecord)) (db : DB)
    (email code : String) (now : Int) (dbOk : Bool) (hash : String → String) :
    ((completeSignup store db email code now dbOk hash).1 = SignupResp.invalidCode ↔
      mapGet store email = none ∨
        ∃ r, mapGet store email = some r ∧
          (r.verificationCode ≠ code ∨ now > r.codeExpiry)) ∧
    (∀ uid,
      (completeSignup store db email code now dbOk hash).1 = SignupResp.created uid →
      ∃ r, mapGet store email = some r ∧ r.verificationCode = code ∧
        now ≤ r.codeExpiry ∧ uid = db.nextId ∧
        (completeSignup store db email code now dbOk hash).2.1 = mapDelete store email ∧
        (completeSignup store db email code now dbOk hash).2.2 =
          { credentials := db.credentials ++
              [{ user_id := db.nextId, username := r.username,
                 password := hash (jsTrim r.password), role_id := 1 }],
            profiles := db.profiles ++
              [{ user_id := db.nextId, firstname := r.firstname, lastname := r.lastname,
                 birthdate := r.birthdate, gender := r.gender, email := email,
                 mobile_number := r.mobilenumber }],
            nextId := db.nextId + 1 }) := by
  refine ⟨completeSignup_invalid_iff store db email code now dbOk hash, ?_⟩
  intro uid h
  obtain ⟨r, hm, hc, he, _, huid, hst, hdb⟩ :=
    completeSignup_created store db email code now dbOk hash uid h
  exact ⟨r, hm, hc, he, huid, hst, hdb⟩

/-- Witness for `completeSignup_spec`: with an empty verification store, the
completion attempt is rejected as invalid-or-expired. -/
theorem completeSignup_spec_witness :
    (completeSignup [] { credentials := [], profiles := [], nextId := 1 }
        "a@x.com" "123456" 0 true (fun s => s)).1 = SignupResp.invalidCode :=
  (completeSignup_spec [] { credentials := [], profiles := [], nextId := 1 }
      "a@x.com" "123456" 0 true (fun s => s)).1.mpr (Or.inl rfl)

/-- C3 counterexample: `/reset-password` does not consume the password-reset
OTP record. Concretely: the store holds the code "123456" for "a@x.com"
(expiry 1000, user 7); reset-password succeeds at time 500, and a repeated
submission of the same OTP through `/verify-otp` at time 500 still succeeds
with the user id instead of failing with an invalid-or-expired error. -/
theorem resetPassword_otp_replay_counterexample :
    (resetPassword
        { credentials := [{ user_id := 7, username := "alice", password := "H", role_id := 1 }],
          profiles := [{ user_id := 7, firstname := "A", lastname := "L",
                         birthdate := "2000-01-01", gender := "F", email := "a@x.com",
                         mobile_number := "0" }],
          nextId := 8 }
        [("a@x.com", { resetCode := "123456", codeExpiry := 1000, userId := 7 })]
        "a@x.com" "NewPw1" (fun s => String.append "h:" s)).1 = ResetPwResp.okUpdated ∧
    (verifyOtp
        (resetPassword
          { credentials := [{ user_id := 7, username := "alice", password := "H", role_id := 1 }],
            profiles := [{ user_id := 7, firstname := "A", lastname := "L",
                           birthdate := "2000-01-01", gender := "F", email := "a@x.com",
                           mobile_number := "0" }],
            nextId := 8 }
          [("a@x.com", { resetCode := "123456", codeExpiry := 1000, userId := 7 })]
          "a@x.com" "NewPw1" (fun s => String.append "h:" s)).2.2
        "a@x.com" "123456" 500).1 = OtpResp.verified 7 := by
  exact ⟨rfl, rfl⟩

/-- C3 amended: after a successful `/complete-signup` or
`/confirm-email-change`, the consumed record is removed from its store, so a
repeat submission of the same code fails with the invalid-or-expired
(respectively no-OTP-request) error; `/reset-password`, by contrast, leaves
the password-reset record in place (see the counterexample). -/
theorem otp_single_use_amended (store : List (String × VerRecord)) (db db2 : DB)
    (email code : String) (now now' : Int) (dbOk dbOk' : Bool)
    (hash : String → String) (uid : Nat)
    (ostore : List (String × OtpRecord)) (odb odb2 : DB) (user_id : Nat)
    (otp : String) (onow onow' : Int) :
    ((completeSignup store db email code now dbOk hash).1 = SignupResp.created uid →
      (completeSignup (completeSignup store db email code now dbOk hash).2.1
          db2 email code now' dbOk' hash).1 = SignupResp.invalidCode) ∧
    ((confirmEmailChange ostore odb user_id otp onow).1 = EmailChangeResp.okUpdated →
      (confirmEmailChange (confirmEmailChange ostore odb user_id otp onow).2.1
          odb2 user_id otp onow').1 = EmailChangeResp.noRequest) := by
  constructor
  · intro h
    obtain ⟨r, _, _, _, _, _, hst, _⟩ :=
      completeSignup_created store db email code now dbOk hash uid h
    rw [hst]
    have hnone : mapGet (mapDelete store email) email = none := mapGet_mapDelete store email
    simp [completeSignup, hnone]
  · intro h
    rw [confirmEmailChange_ok ostore odb user_id otp onow h]
    have hnone : mapGet (mapDelete ostore (toString user_id)) (toString user_id) = none :=
      mapGet_mapDelete ostore (toString user_id)
    simp [confirmEmailChange, hnone]

/-- Witness for `otp_single_use_amended`: a concrete successful signup
completion and email-change confirmation, each followed by a rejected
replay. -/
theorem otp_single_use_amended_witness :
    (completeSignup
        (completeSignup
          [("a@x.com",
            { username := "alice", password := "pw", firstname := "A", lastname := "L",
              birthdate := "2000-01-01", gender := "F", mobilenumber := "0",
              verificationCode := "123456", codeExpiry := 1000 })]
          { credentials := [], profiles := [], nextId := 1 }
          "a@x.com" "123456" 500 true (fun s => s)).2.1
        { credentials := [], profiles := [], nextId := 1 }
        "a@x.com" "123456" 500 true (fun s => s)).1 = SignupResp.invalidCode ∧
    (confirmEmailChange
        (confirmEmailChange
          [("7", { otp := "654321", newEmail := "new@x.com", timestamp := 0 })]
          { credentials := [], profiles := [], nextId := 1 } 7 "654321" 1000).2.1
        { credentials := [], profiles := [], nextId := 1 } 7 "654321" 1000).1 =
      EmailChangeResp.noRequest :=
  ⟨(otp_single_use_amended
      [("a@x.com",
        { username := "alice", password := "pw", firstname := "A", lastname := "L",
          birthdate := "2000-01-01", gender := "F", mobilenumber := "0",
          verificationCode := "123456", codeExpiry := 1000 })]
      { credentials := [], profiles := [], nextId := 1 }
      { credentials := [], profiles := [], nextId := 1 }
      "a@x.com" "123456" 500 500 true true (fun s => s) 1
      [] { credentials := [], profiles := [], nextId := 1 }
      { credentials := [], profiles := [], nextId := 1 } 0 "" 0 0).1 (by decide),
   (otp_single_use_amended [] { credentials := [], profiles := [], nextId := 1 }
      { credentials := [], profiles := [], nextId := 1 } "" "" 0 0 true true
      (fun s => s) 0
      [("7", { otp := "654321", newEmail := "new@x.com", timestamp := 0 })]
      { credentials := [], profiles := [], nextId := 1 }
      { credentials := [], profiles := [], nextId := 1 } 7 "654321" 1000 1000).2
      (by decide)⟩

/-- C4: on every read path over the verification/OTP stores — complete-signup,
verify-otp and confirm-email-change — a stored record whose expiry is
strictly in the past never lets the operation succeed, even though the record
is still present in the store (for confirm-email-change the expiry is
`timestamp + 10 min`). -/
theorem expired_codes_never_succeed
    (store : List (String × VerRecord)) (db : DB) (email code : String)
    (now : Int) (dbOk : Bool) (hash : String → String) (r : VerRecord)
    (rstore : List (String × ResetRecord)) (remail rotp : String) (rr : ResetRecord)
    (ostore : List (String × OtpRecord)) (odb : DB) (ouid : Nat) (ootp : String)
    (orec : OtpRecord) :
    (mapGet store email = some r → now > r.codeExpiry →
      (completeSignup store db email code now dbOk hash).1 = SignupResp.invalidCode) ∧
    (mapGet rstore remail = some rr → now > rr.codeExpiry →
      ∀ uid, (verifyOtp rstore remail rotp now).1 ≠ OtpResp.verified uid) ∧
    (mapGet ostore (toString ouid) = some orec →
      now > orec.timestamp + 10 * 60 * 1000 →
      (confirmEmailChange ostore odb ouid ootp now).1 ≠ EmailChangeResp.okUpdated) := by
  refine ⟨?_, ?_, ?_⟩
  · intro hm he
    exact (completeSignup_invalid_iff store db email code now dbOk hash).mpr
      (Or.inr ⟨r, hm, Or.inr he⟩)
  · intro hm he uid
    by_cases hblank : remail == "" || rotp == ""
    · simp [verifyOtp, hblank]
    · by_cases hc : rr.resetCode = rotp
      · simp [verifyOtp, hblank, hm, hc, he]
      · simp [verifyOtp, hblank, hm, hc]
  · intro hm he
    have hgt : (600000 : Int) < now - orec.timestamp := by omega
    simp [confirmEmailChange, hm, hgt]

/-- Witness for `expired_codes_never_succeed`: a record that expired at time
1000 is rejected on all three read paths at time 2000. -/
theorem expired_codes_never_succeed_witness :
    (completeSignup
        [("a@x.com",
          { username := "alice", password := "pw", firstname := "A", lastname := "L",
            birthdate := "2000-01-01", gender := "F", mobilenumber := "0",
            verificationCode := "123456", codeExpiry := 1000 })]
        { credentials := [], profiles := [], nextId := 1 }
        "a@x.com" "123456" 2000 true (fun s => s)).1 = SignupResp.invalidCode ∧
    (verifyOtp [("a@x.com", { resetCode := "123456", codeExpiry := 1000, userId := 7 })]
        "a@x.com" "123456" 2000).1 ≠ OtpResp.verified 7 ∧
    (confirmEmailChange [("7", { otp := "123456", newEmail := "n@x.com", timestamp := 0 })]
        { credentials := [], profiles := [], nextId := 1 } 7 "123456" 700000).1 ≠
      EmailChangeResp.okUpdated := by
  have h := expired_codes_never_succeed
    [("a@x.com",
      { username := "alice", password := "pw", firstname := "A", lastname := "L",
        birthdate := "2000-01-01", gender := "F", mobilenumber := "0",
        verificationCode := "123456", codeExpiry := 1000 })]
    { credentials := [], profiles := [], nextId := 1 } "a@x.com" "123456" 2000 true
    (fun s => s)
    { username := "alice", password := "pw", firstname := "A", lastname := "L",
      birthdate := "2000-01-01", gender := "F", mobilenumber := "0",
      verificationCode := "123456", codeExpiry := 1000 }
    [("a@x.com", { resetCode := "123456", codeExpiry := 1000, userId := 7 })]
    "a@x.com" "123456" { resetCode := "123456", codeExpiry := 1000, userId := 7 }
    [("7", { otp := "123456", newEmail := "n@x.com", timestamp := 0 })]
    { credentials := [], profiles := [], nextId := 1 } 7 "123456"
    { otp := "123456", newEmail := "n@x.com", timestamp := 0 }
  refine ⟨h.1 (by decide) (by decide), ?_, ?_⟩
  · intro hv
    exact h.2.1 (by decide) (by decide) 7 hv
  · intro hv
    have h3 := expired_codes_never_succeed
      [] { credentials := [], profiles := [], nextId := 1 } "" "" 700000 true
      (fun s => s)
      { username := "", password := "", firstname := "", lastname := "",
        birthdate := "", gender := "", mobilenumber := "",
        verificationCode := "", codeExpiry := 0 }
      [] "" "" { resetCode := "", codeExpiry := 0, userId := 0 }
      [("7", { otp := "123456", newEmail := "n@x.com", timestamp := 0 })]
      { credentials := [], profiles := [], nextId := 1 } 7 "123456"
      { otp := "123456", newEmail := "n@x.com", timestamp := 0 }
    exact h3.2.2 (by decide) (by decide) hv

/-- C5: the registration batch of `/complete-signup` runs inside a single
`BEGIN TRANSACTION ... COMMIT TRANSACTION` batch, modelled as atomic
(spec-modelled persistence collaborator, see the DB model note): when the
batch fails — in particular when the profile insert fails after the
credentials insert — the database is unchanged, no user id is returned, and
`/login` behaves exactly as it did before the attempt, so no partially
created user is ever visible to it. -/
theorem signup_atomic_on_failure (store : List (String × VerRecord)) (db : DB)
    (email code : String) (now : Int) (hash : String → String) :
    (completeSignup store db email code now false hash).2.2 = db ∧
    (∀ uid, (completeSignup store db email code now false hash).1 ≠
      SignupResp.created uid) ∧
    (∀ ident pw check,
      login (completeSignup store db email code now false hash).2.2 ident pw check =
        login db ident pw check) := by
  obtain ⟨hdb, _, hnc⟩ := completeSignup_dbFail store db email code now hash
  exact ⟨hdb, hnc, fun ident pw check => by rw [hdb]⟩

/-- C8: `/pre-signup` returns 409 and leaves both stores untouched when the
email is already among the persisted profiles; otherwise it returns 200 with
the email, records a pending registration under that email whose code is the
generated 6-digit one and whose expiry is 15 minutes from now, and sends that
code to the email; and in every case the persisted database is entirely
unchanged — pre-signup performs no database write. -/
theorem preSignup_spec (db : DB) (store : List (String × VerRecord))
    (req : PreSignupReq) (now : Int) (rand : Nat) :
    (preSignup db store req now rand).2.2.1 = db ∧
    ((∃ p ∈ db.profiles, p.email = req.email) →
      (preSignup db store req now rand).1 = PreSignupResp.conflict ∧
      (preSignup db store req now rand).2.1 = store ∧
      (preSignup db store req now rand).2.2.2 = []) ∧
    ((∀ p ∈ db.profiles, p.email ≠ req.email) →
      (preSignup db store req now rand).1 = PreSignupResp.okSent req.email ∧
      (preSignup db store req now rand).2.2.2 =
        [(req.email, generateVerificationCode rand)] ∧
      mapGet (preSignup db store req now rand).2.1 req.email = some
        { username := req.username, password := req.password,
          firstname := req.firstname, lastname := req.lastname,
          birthdate := req.birthdate, gender := req.gender,
          mobilenumber := req.mobilenumber,
          verificationCode := generateVerificationCode rand,
          codeExpiry := now + 15 * 60 * 1000 } ∧
      ∃ n : Nat, generateVerificationCode rand = toString n ∧
        100000 ≤ n ∧ n ≤ 999999) := by
  by_cases hx : db.profiles.any (fun p => p.email == req.email)
  · refine ⟨by simp [preSignup, hx], fun _ => by simp [preSignup, hx], fun hall => ?_⟩
    obtain ⟨p, hp, hpe⟩ := List.any_eq_true.mp hx
    exact absurd (by simpa using hpe) (hall p hp)
  · refine ⟨by simp [preSignup, hx], fun hex => ?_, fun _ => ?_⟩
    · obtain ⟨p, hp, hpe⟩ := hex
      exact absurd (List.any_eq_true.mpr ⟨p, hp, by simpa using hpe⟩) hx
    · refine ⟨by simp [preSignup, hx], by simp [preSignup, hx], ?_, ?_⟩
      · have := mapGet_mapSet_self store req.email
          { username := req.username, password := req.password,
            firstname := req.firstname, lastname := req.lastname,
            birthdate := req.birthdate, gender := req.gender,
            mobilenumber := req.mobilenumber,
            verificationCode := generateVerificationCode rand,
            codeExpiry := now + 15 * 60 * 1000 }
        simpa [preSignup, hx] using this
      · refine ⟨100000 + rand % 900000, rfl, by omega, ?_⟩
        have := Nat.mod_lt rand (show 0 < 900000 by omega)
        omega

/-- Witness for `preSignup_spec`: against an empty profile table, a concrete
pre-signup request is accepted, stores the pending record with a 15-minute
expiry, and sends the generated code. -/
theorem preSignup_spec_witness :
    (preSignup { credentials := [], profiles := [], nextId := 1 } []
        { username := "alice", email := "a@x.com", password := "pw",
          firstname := "A", lastname := "L", birthdate := "2000-01-01",
          gender := "F", mobilenumber := "0" } 0 42).1 =
      PreSignupResp.okSent "a@x.com" ∧
    mapGet (preSignup { credentials := [], profiles := [], nextId := 1 } []
        { username := "alice", email := "a@x.com", password := "pw",
          firstname := "A", lastname := "L", birthdate := "2000-01-01",
          gender := "F", mobilenumber := "0" } 0 42).2.1 "a@x.com" = some
      { username := "alice", password := "pw", firstname := "A", lastname := "L",
        birthdate := "2000-01-01", gender := "F", mobilenumber := "0",
        verificationCode := "100042", codeExpiry := 900000 } := by
  have h := (preSignup_spec { credentials := [], profiles := [], nextId := 1 } []
    { username := "alice", email := "a@x.com", password := "pw",
      firstname := "A", lastname := "L", birthdate := "2000-01-01",
      gender := "F", mobilenumber := "0" } 0 42).2.2 (by simp)
  exact ⟨h.1, by rw [h.2.2.1]; rfl⟩

/-- C9: in the consolidated `/login`, the no-matching-credential-row case and
the bcrypt-mismatch case produce the identical invalid-credentials response,
so the two failure causes are indistinguishable to the client; on success the
user summary (id, username, joined email, roleId) is returned. -/
theorem login_failure_indistinguishable (db1 db2 : DB)
    (identifier password : String) (check : String → String → Bool) (c : CredRow)
    (hid : identifier ≠ "") (hpw : password ≠ "")
    (h1 : loginLookup db1 (jsTrim identifier) = none)
    (h2 : loginLookup db2 (jsTrim identifier) = some c)
    (h3 : check (jsTrim password) c.password = false) :
    login db1 identifier password check = LoginResp.invalidCredentials ∧
    login db2 identifier password check = LoginResp.invalidCredentials ∧
    login db1 identifier password check = login db2 identifier password check ∧
    (∀ db c', loginLookup db (jsTrim identifier) = some c' →
      check (jsTrim password) c'.password = true →
      login db identifier password check =
        LoginResp.loggedIn c'.user_id c'.username
          ((profileOf db c'.user_id).map ProfileRow.email) c'.role_id) := by
  have ha : login db1 identifier password check = LoginResp.invalidCredentials := by
    simp [login, hid, hpw, h1]
  have hb : login db2 identifier password check = LoginResp.invalidCredentials := by
    simp [login, hid, hpw, h2, h3]
  refine ⟨ha, hb, ha.trans hb.symm, ?_⟩
  intro db c' hl hc
  simp [login, hid, hpw, hl, hc]

/-- Witness for `login_failure_indistinguishable`: an empty credential table
and a table whose stored hash does not match produce the same response, and
a matching hash logs in. -/
theorem login_failure_indistinguishable_witness :
    login { credentials := [], profiles := [], nextId := 1 } "alice" "Secret123"
        (fun p h => h == String.append "H:" p) = LoginResp.invalidCredentials ∧
    login { credentials := [{ user_id := 7, username := "alice", password := "H:Other",
                              role_id := 1 }],
            profiles := [], nextId := 8 } "alice" "Secret123"
        (fun p h => h == String.append "H:" p) = LoginResp.invalidCredentials := by
  have h := login_failure_indistinguishable
    { credentials := [], profiles := [], nextId := 1 }
    { credentials := [{ user_id := 7, username := "alice", password := "H:Other",
                        role_id := 1 }],
      profiles := [], nextId := 8 }
    "alice" "Secret123" (fun p h => h == String.append "H:" p)
    { user_id := 7, username := "alice", password := "H:Other", role_id := 1 }
    (by decide) (by decide) (by decide) (by decide) (by decide)
  exact ⟨h.1, h.2.1⟩

/-- C10: the consolidated `/save` checks its four required fields
asymmetrically: `disease_prediction` and `disease_prediction_score` are
reported missing exactly when null or undefined (so the number 0 passes),
while `scan_image` and `user_profile_id` are reported missing exactly when
falsy (so empty string or 0 is rejected); any non-empty missing list yields
the 400 response naming those fields — concretely, a request with score 0,
prediction 0 and an empty-string image is rejected listing only
"scan_image", and with a non-empty image it proceeds. -/
theorem save_missing_field_asymmetry (r : SaveReq) :
    ("scan_image" ∈ saveMissingFields r ↔ falsy r.scan_image = true) ∧
    ("user_profile_id" ∈ saveMissingFields r ↔ falsy r.user_profile_id = true) ∧
    ("disease_prediction_score" ∈ saveMissingFields r ↔
      isNullish r.disease_prediction_score = true) ∧
    ("disease_prediction" ∈ saveMissingFields r ↔
      isNullish r.disease_prediction = true) ∧
    (falsy (JsVal.num 0) = true ∧ isNullish (JsVal.num 0) = false) ∧
    (saveMissingFields r ≠ [] →
      saveCheck r = SaveResp.badRequest (saveMissingFields r)) ∧
    saveCheck { user_profile_id := JsVal.num 5, disease_prediction := JsVal.num 0,
                disease_prediction_score := JsVal.num 0,
                scan_image := JsVal.str "" } =
      SaveResp.badRequest ["scan_image"] ∧
    saveCheck { user_profile_id := JsVal.num 5, disease_prediction := JsVal.num 0,
                disease_prediction_score := JsVal.num 0,
                scan_image := JsVal.str "img" } = SaveResp.proceed := by
  refine ⟨?_, ?_, ?_, ?_, ⟨rfl, rfl⟩, ?_, by decide, by decide⟩
  · by_cases h1 : falsy r.scan_image <;>
      by_cases h2 : falsy r.user_profile_id <;>
      by_cases h3 : isNullish r.disease_prediction_score <;>
      by_cases h4 : isNullish r.disease_prediction <;>
      simp [saveMissingFields, h1, h2, h3, h4]
  · by_cases h1 : falsy r.scan_image <;>
      by_cases h2 : falsy r.user_profile_id <;>
      by_cases h3 : isNullish r.disease_prediction_score <;>
      by_cases h4 : isNullish r.disease_prediction <;>
      simp [saveMissingFields, h1, h2, h3, h4]
  · by_cases h1 : falsy r.scan_image <;>
      by_cases h2 : falsy r.user_profile_id <;>
      by_cases h3 : isNullish r.disease_prediction_score <;>
      by_cases h4 : isNullish r.disease_prediction <;>
      simp [saveMissingFields, h1, h2, h3, h4]
  · by_cases h1 : falsy r.scan_image <;>
      by_cases h2 : falsy r.user_profile_id <;>
      by_cases h3 : isNullish r.disease_prediction_score <;>
      by_cases h4 : isNullish r.disease_prediction <;>
      simp [saveMissingFields, h1, h2, h3, h4]
  · intro h
    unfold saveCheck
    rw [if_pos (List.length_pos.mpr h)]

/-- Witness for `save_missing_field_asymmetry`: a zero score is not reported
missing, while an empty-string image is. -/
theorem save_missing_field_asymmetry_witness :
    "scan_image" ∈ saveMissingFields
      { user_profile_id := JsVal.num 5, disease_prediction := JsVal.num 0,
        disease_prediction_score := JsVal.num 0, scan_image := JsVal.str "" } ∧
    "disease_prediction_score" ∉ saveMissingFields
      { user_profile_id := JsVal.num 5, disease_prediction := JsVal.num 0,
        disease_prediction_score := JsVal.num 0, scan_image := JsVal.str "" } := by
  have h := save_missing_field_asymmetry
    { user_profile_id := JsVal.num 5, disease_prediction := JsVal.num 0,
      disease_prediction_score := JsVal.num 0, scan_image := JsVal.str "" }
  refine ⟨h.1.mpr (by decide), fun hmem => ?_⟩
  have := h.2.2.1.mp hmem
  simp [isNullish] at this

/-- Witness for `getConnection_meets_acquireSpec`: the contract holds at a
concrete two-entry pool with one closed and one ready connection. -/
theorem getConnection_meets_acquireSpec_witness :
    acquireSpec
      { entries := [3, 4],
        connState := fun x => if x = 3 then ConnState.Final else ConnState.LoggedIn,
        isExecuting := fun _ => false } 9
      (getConnection
        { entries := [3, 4],
          connState := fun x => if x = 3 then ConnState.Final else ConnState.LoggedIn,
          isExecuting := fun _ => false } 9).1
      (getConnection
        { entries := [3, 4],
          connState := fun x => if x = 3 then ConnState.Final else ConnState.LoggedIn,
          isExecuting := fun _ => false } 9).2 :=
  getConnection_meets_acquireSpec
    { entries := [3, 4],
      connState := fun x => if x = 3 then ConnState.Final else ConnState.LoggedIn,
      isExecuting := fun _ => false } 9

/-- Witness for `signup_atomic_on_failure`: a concrete failed registration
batch leaves the database unchanged and login unaffected. -/
theorem signup_atomic_on_failure_witness :
    (completeSignup
        [("a@x.com",
          { username := "alice", password := "pw", firstname := "A", lastname := "L",
            birthdate := "2000-01-01", gender := "F", mobilenumber := "0",
            verificationCode := "123456", codeExpiry := 1000 })]
        { credentials := [], profiles := [], nextId := 1 }
        "a@x.com" "123456" 500 false (fun s => s)).2.2 =
      { credentials := [], profiles := [], nextId := 1 } ∧
    login (completeSignup
        [("a@x.com",
          { username := "alice", password := "pw", firstname := "A", lastname := "L",
            birthdate := "2000-01-01", gender := "F", mobilenumber := "0",
            verificationCode := "123456", codeExpiry := 1000 })]
        { credentials := [], profiles := [], nextId := 1 }
        "a@x.com" "123456" 500 false (fun s => s)).2.2 "alice" "pw" (fun _ _ => true) =
      login { credentials := [], profiles := [], nextId := 1 } "alice" "pw"
        (fun _ _ => true) :=
  ⟨(signup_atomic_on_failure
      [("a@x.com",
        { username := "alice", password := "pw", firstname := "A", lastname := "L",
          birthdate := "2000-01-01", gender := "F", mobilenumber := "0",
          verificationCode := "123456", codeExpiry := 1000 })]
      { credentials := [], profiles := [], nextId := 1 }
      "a@x.com" "123456" 500 (fun s => s)).1,
   (signup_atomic_on_failure
      [("a@x.com",
        { username := "alice", password := "pw", firstname := "A", lastname := "L",
          birthdate := "2000-01-01", gender := "F", mobilenumber := "0",
          verificationCode := "123456", codeExpiry := 1000 })]
      { credentials := [], profiles := [], nextId := 1 }
      "a@x.com" "123456" 500 (fun s => s)).2.2 "alice" "pw" (fun _ _ => true)⟩

end PalAi
